import Mathlib

/-!
Shallow embedding of `src/predict.py` (Taiwan stock opening predictor,
first script variant: `download_with_retry`, `fetch_latest_data`,
`calculate_changes`, `predict_opening`, `main`).

Numbers are modelled as exact rationals (`ℚ`); Python's `int()` truncation
toward zero is `int_trunc`.  A provider attempt is abstracted as an
`AttemptOutcome` (the data frame returned, or the classified exception),
a market as a map from ticker symbol to per-attempt outcome.  Python
exceptions that the source catches (`KeyError`, `ZeroDivisionError`,
`IndexError`) are modelled by `Option`: `none` is "raised and handled by
the enclosing handler".
-/

namespace TwStockPredictor

/-- Per-instrument model weights from `MODEL_WEIGHTS` (predict.py lines 16-22). -/
structure ModelWeights where
  tsm : ℚ
  sox : ℚ
  nasdaq : ℚ
  sp500 : ℚ
  currency : ℚ
deriving DecidableEq

/-- `MODEL_WEIGHTS = {tsm: 0.35, sox: 0.25, nasdaq: 0.20, sp500: 0.15, currency: 0.05}`. -/
def MODEL_WEIGHTS : ModelWeights :=
  ⟨35/100, 25/100, 20/100, 15/100, 5/100⟩

/-- Band/confidence parameters from `MODEL_PARAMS` (predict.py lines 24-29). -/
structure ModelParams where
  avgError : ℚ
  stdDev : ℚ
  accuracy : ℚ
  volatility : ℚ
deriving DecidableEq

/-- `MODEL_PARAMS = {avgError: 127, stdDev: 85, accuracy: 0.87, volatility: 1.15}`. -/
def MODEL_PARAMS : ModelParams :=
  ⟨127, 85, 87/100, 115/100⟩

/-- Python's `int()` applied to a rational: truncation toward zero. -/
def int_trunc (q : ℚ) : ℤ :=
  if q < 0 then -⌊-q⌋ else ⌊q⌋

/-- What one `yf.download` attempt does, as seen by `download_with_retry`:
either a data frame is returned (a list of daily closes, possibly empty),
or an exception is raised, classified exactly as the source classifies it:
`permError` for messages matching "No timezone found"/"symbol may be
delisted", `transientError` for "Connection"/"timeout", `unknownError`
for everything else. -/
inductive AttemptOutcome where
  | data (bars : List ℚ)
  | permError
  | transientError
  | unknownError
deriving DecidableEq

/-- The loop of `download_with_retry` (predict.py lines 46-86).
`fuel` counts the attempts remaining in `for attempt in range(max_retries)`;
`sleeps` accumulates the `time.sleep` durations performed so far.
Mirrors the source exactly: a non-empty frame returns immediately; an
empty frame falls through to the next attempt with no sleep; a
permanent-classified exception returns `None` immediately; a transient or
unknown exception sleeps `2 ** attempt` seconds when `attempt <
max_retries - 1` and retries. -/
def download_go (provider : Nat → AttemptOutcome) (max_retries : Nat) :
    Nat → Nat → List Nat → Option (List ℚ) × List Nat
  | 0, _, sleeps => (none, sleeps)
  | fuel + 1, attempt, sleeps =>
    match provider attempt with
    | .data bars =>
        if bars.length > 0 then (some bars, sleeps)
        else download_go provider max_retries fuel (attempt + 1) sleeps
    | .permError => (none, sleeps)
    | .transientError =>
        if attempt < max_retries - 1 then
          download_go provider max_retries fuel (attempt + 1) (sleeps ++ [2 ^ attempt])
        else
          download_go provider max_retries fuel (attempt + 1) sleeps
    | .unknownError =>
        if attempt < max_retries - 1 then
          download_go provider max_retries fuel (attempt + 1) (sleeps ++ [2 ^ attempt])
        else
          download_go provider max_retries fuel (attempt + 1) sleeps

/-- `download_with_retry(ticker, start, end, max_retries=3)`: returns the
bar series (or `None` after exhaustion / permanent failure) together with
the list of sleep durations performed, in order. -/
def download_with_retry (provider : Nat → AttemptOutcome) (max_retries : Nat) :
    Option (List ℚ) × List Nat :=
  download_go provider max_retries max_retries 0 []

/-- One per-instrument entry of the `result` dict built by
`calculate_changes` (predict.py lines 173-178). -/
structure ChangeRecord where
  name : String
  prev_close : ℚ
  curr_close : ℚ
  change_pct : ℚ
deriving DecidableEq

/-- The per-instrument body of `calculate_changes` (predict.py lines
161-185), i.e. the work inside the `try`: pick `iloc[-2]`/`iloc[-1]` when
the series has ≥ 2 bars, collapse both to `iloc[-1]` otherwise, then
`change_pct = ((curr - prev) / prev) * 100`.  `none` models a raised
exception caught by the `except` at line 184: an empty series raises
`IndexError` on `iloc[-1]`, a zero `prev_close` raises
`ZeroDivisionError` on the division. -/
def computeChange (name : String) (closes : List ℚ) : Option ChangeRecord :=
  match closes.dropLast.getLast?, closes.getLast? with
  | some prev, some curr =>
      if prev = 0 then none
      else some ⟨name, prev, curr, (curr - prev) / prev * 100⟩
  | none, some curr =>
      if curr = 0 then none
      else some ⟨name, curr, curr, (curr - curr) / curr * 100⟩
  | _, none => none

/-- `calculate_changes` (predict.py lines 141-188): builds the keyed
result dict, silently dropping every instrument whose `try` body raised. -/
def calculate_changes (downloaded : List (String × String × List ℚ)) :
    List (String × ChangeRecord) :=
  downloaded.filterMap fun e =>
    match computeChange e.2.1 e.2.2 with
    | some record => some (e.1, record)
    | none => none

/-- The weighted-sum expression of predict.py lines 219-225. -/
def weighted_change_of (sp500_change nasdaq_change sox_change tsm_change currency_change : ℚ) : ℚ :=
  sp500_change * MODEL_WEIGHTS.sp500 +
  nasdaq_change * MODEL_WEIGHTS.nasdaq +
  sox_change * MODEL_WEIGHTS.sox +
  tsm_change * MODEL_WEIGHTS.tsm +
  currency_change * MODEL_WEIGHTS.currency

/-- The dict returned by `predict_opening` (predict.py lines 259-267). -/
structure Prediction where
  prev_close : ℚ
  predicted_open : ℚ
  predicted_high : ℚ
  predicted_low : ℚ
  range_width : ℚ
  confidence : ℤ
  weighted_change : ℚ
deriving DecidableEq

/-- The arithmetic of `predict_opening` after the five change percentages
and the baseline close have been extracted (predict.py lines 218-267):
weighted change, predicted open, symmetric band, and the two-tier
confidence `int(((|wc| > 0.5 ? 1.0 : 0.7) * 0.95) * accuracy * 100)`
(lines 238-239; the source's `?:` conditional read as the conditional
expression it denotes). -/
def predict_core (sp500_change nasdaq_change sox_change tsm_change currency_change
    prev_twii_close : ℚ) : Prediction :=
  let weighted_change :=
    weighted_change_of sp500_change nasdaq_change sox_change tsm_change currency_change
  let predicted_open := prev_twii_close * (1 + weighted_change / 100)
  let volatility_range := MODEL_PARAMS.stdDev * MODEL_PARAMS.volatility
  let predicted_high := predicted_open + volatility_range
  let predicted_low := predicted_open - volatility_range
  let range_width := volatility_range * 2
  let consistency_score := (if |weighted_change| > 1/2 then (1 : ℚ) else 7/10) * (95/100)
  let confidence := int_trunc (consistency_score * MODEL_PARAMS.accuracy * 100)
  ⟨prev_twii_close, predicted_open, predicted_high, predicted_low, range_width,
    confidence, weighted_change⟩

/-- `predict_opening` (predict.py lines 192-267): the `try` block of lines
207-216 looks up the five weighted instruments' `change_pct` and the
target's `curr_close` by ticker key; any `KeyError` returns `None`. -/
def predict_opening (calculated : List (String × ChangeRecord)) : Option Prediction :=
  match List.lookup "^GSPC" calculated, List.lookup "^IXIC" calculated,
        List.lookup "^SOX" calculated, List.lookup "TSM" calculated,
        List.lookup "USDTWD=X" calculated, List.lookup "^TWII" calculated with
  | some gspc, some ixic, some soxr, some tsmr, some usd, some twii =>
      some (predict_core gspc.change_pct ixic.change_pct soxr.change_pct
        tsmr.change_pct usd.change_pct twii.curr_close)
  | _, _, _, _, _, _ => none

/-- A market environment: for each ticker symbol, what each download
attempt does. -/
def Market : Type :=
  String → Nat → AttemptOutcome

/-- The six configured instruments of `fetch_latest_data`
(predict.py lines 110-117), ticker and label. -/
def tickers : List (String × String) :=
  [("^GSPC", "SP500"), ("^IXIC", "NASDAQ"), ("^SOX", "SOX"),
   ("TSM", "TSM ADR"), ("USDTWD=X", "USD TWD"), ("^TWII", "TWII")]

/-- `fetch_latest_data` (predict.py lines 90-137): download each of the
six tickers with `download_with_retry` (default 3 attempts), keep the
successes, and return `None` when fewer than 4 instruments were obtained. -/
def fetch_latest_data (market : Market) : Option (List (String × String × List ℚ)) :=
  let downloaded := tickers.filterMap fun tn =>
    match (download_with_retry (market tn.1) 3).1 with
    | some bars => some (tn.1, tn.2, bars)
    | none => none
  if downloaded.length < 4 then none else some downloaded

/-- `main` (predict.py lines 284-320), deterministic control flow: exit
code together with the prediction produced (if any).  `sys.exit(1)` when
the fetch stage returns `None`, when fewer than 4 change records were
computed, or when `predict_opening` returns `None`; otherwise the run
falls off the end of `main` and the process exits 0. -/
def main (market : Market) : Nat × Option Prediction :=
  match fetch_latest_data market with
  | none => (1, none)
  | some downloaded =>
    let calculated := calculate_changes downloaded
    if calculated.length < 4 then (1, none)
    else
      match predict_opening calculated with
      | none => (1, none)
      | some prediction => (0, some prediction)

/-- A complete set of change records: every weighted instrument moved
+1 percent, target baseline close 20000. -/
def exampleRecords : List (String × ChangeRecord) :=
  [("^GSPC", ⟨"SP500", 100, 101, 1⟩), ("^IXIC", ⟨"NASDAQ", 100, 101, 1⟩),
   ("^SOX", ⟨"SOX", 100, 101, 1⟩), ("TSM", ⟨"TSM ADR", 100, 101, 1⟩),
   ("USDTWD=X", ⟨"USD TWD", 100, 101, 1⟩), ("^TWII", ⟨"TWII", 20000, 20000, 0⟩)]

/-- What `predict_opening` returns on `exampleRecords`:
weighted change exactly 1, open 20200, band ±97.75, confidence 82. -/
def exPrediction : Prediction :=
  ⟨20000, 20200, 81191/4, 80409/4, 391/2, 82, 1⟩

/-- Provider whose first two attempts fail transiently and whose third
attempt returns two bars. -/
def twoTransientThenOk : Nat → AttemptOutcome
  | 0 => .transientError
  | 1 => .transientError
  | _ => .data [100, 101]

/-- Provider that always raises a permanent-classified error. -/
def permProvider : Nat → AttemptOutcome :=
  fun _ => .permError

/-- Provider that always returns an empty frame. -/
def emptyProvider : Nat → AttemptOutcome :=
  fun _ => .data []

/-- Provider whose first attempt returns an empty frame and whose second
attempt returns one bar. -/
def emptyThenOk : Nat → AttemptOutcome
  | 0 => .data []
  | _ => .data [42]

/-- Market in which the five weighted instruments download fine on the
first attempt but the target index `^TWII` fails permanently. -/
def exMarket10 : Market :=
  fun t _ => if t = "^TWII" then .permError else .data [100, 101]

/-- The downloaded-data dict produced by `fetch_latest_data` on
`exMarket10`: five instruments, no `^TWII`. -/
def d10 : List (String × String × List ℚ) :=
  [("^GSPC", "SP500", [100, 101]), ("^IXIC", "NASDAQ", [100, 101]),
   ("^SOX", "SOX", [100, 101]), ("TSM", "TSM ADR", [100, 101]),
   ("USDTWD=X", "USD TWD", [100, 101])]

end TwStockPredictor

namespace TwStockPredictor

/-- Helper: inversion of `predict_opening` — a produced prediction pins all
six lookups to `some` and the result to `predict_core` of the extracted
fields. -/
theorem predict_opening_inv {calculated : List (String × ChangeRecord)} {p : Prediction}
    (h : predict_opening calculated = some p) :
    ∃ g i s t u w,
      List.lookup "^GSPC" calculated = some g ∧
      List.lookup "^IXIC" calculated = some i ∧
      List.lookup "^SOX" calculated = some s ∧
      List.lookup "TSM" calculated = some t ∧
      List.lookup "USDTWD=X" calculated = some u ∧
      List.lookup "^TWII" calculated = some w ∧
      p = predict_core g.change_pct i.change_pct s.change_pct t.change_pct
        u.change_pct w.curr_close := by
  unfold predict_opening at h
  rcases hg : List.lookup "^GSPC" calculated with _ | g <;> rw [hg] at h <;>
  rcases hi : List.lookup "^IXIC" calculated with _ | i <;> rw [hi] at h <;>
  rcases hs : List.lookup "^SOX" calculated with _ | s <;> rw [hs] at h <;>
  rcases ht : List.lookup "TSM" calculated with _ | t <;> rw [ht] at h <;>
  rcases hu : List.lookup "USDTWD=X" calculated with _ | u <;> rw [hu] at h <;>
  rcases hw : List.lookup "^TWII" calculated with _ | w <;> rw [hw] at h <;>
  first
    | exact Option.noConfusion h
    | exact ⟨g, i, s, t, u, w, rfl, rfl, rfl, rfl, rfl, rfl, (Option.some.inj h).symm⟩

/-- Helper: if any of the six required lookups misses, `predict_opening`
returns `none` (the source's `except KeyError` path). -/
theorem predict_opening_none_of_missing {calculated : List (String × ChangeRecord)}
    (h : List.lookup "^GSPC" calculated = none ∨
         List.lookup "^IXIC" calculated = none ∨
         List.lookup "^SOX" calculated = none ∨
         List.lookup "TSM" calculated = none ∨
         List.lookup "USDTWD=X" calculated = none ∨
         List.lookup "^TWII" calculated = none) :
    predict_opening calculated = none := by
  cases hp : predict_opening calculated with
  | none => rfl
  | some p =>
    obtain ⟨g, i, s, t, u, w, hg, hi, hs, ht, hu, hw, -⟩ := predict_opening_inv hp
    rcases h with h | h | h | h | h | h <;> simp_all

/-- Helper: the high-signal confidence value, `int(1.0 * 0.95 * 0.87 * 100)`. -/
theorem int_trunc_high : int_trunc ((1 : ℚ) * (95/100) * MODEL_PARAMS.accuracy * 100) = 82 := by
  norm_num [int_trunc, MODEL_PARAMS, Int.floor_eq_iff]

/-- Helper: the low-signal confidence value, `int(0.7 * 0.95 * 0.87 * 100)`. -/
theorem int_trunc_low : int_trunc ((7/10 : ℚ) * (95/100) * MODEL_PARAMS.accuracy * 100) = 57 := by
  norm_num [int_trunc, MODEL_PARAMS, Int.floor_eq_iff]

/-- Helper: the confidence field of `predict_core` is the two-tier value. -/
theorem predict_core_confidence (a b c d e f : ℚ) :
    (predict_core a b c d e f).confidence =
      if |weighted_change_of a b c d e| > 1/2 then 82 else 57 := by
  simp only [predict_core]
  split_ifs with h
  · exact int_trunc_high
  · exact int_trunc_low

/-- Helper: the weighted_change field of `predict_core`. -/
theorem predict_core_weighted_change (a b c d e f : ℚ) :
    (predict_core a b c d e f).weighted_change = weighted_change_of a b c d e := rfl

/-- Helper: evaluation of `predict_opening` on the example records. -/
theorem example_predict_eq : predict_opening exampleRecords = some exPrediction := by
  have h : predict_opening exampleRecords = some (predict_core 1 1 1 1 1 20000) := rfl
  rw [h]
  norm_num [predict_core, exPrediction, weighted_change_of, MODEL_WEIGHTS,
    MODEL_PARAMS, int_trunc, Prediction.mk.injEq, Int.floor_eq_iff, abs_one]

/-- Helper: when every attempt returns an empty frame, the loop runs out of
attempts and returns `None`, having slept never. -/
theorem download_go_all_empty (provider : Nat → AttemptOutcome) (n : Nat)
    (hp : ∀ k, provider k = AttemptOutcome.data []) :
    ∀ (fuel attempt : Nat) (sleeps : List Nat),
      download_go provider n fuel attempt sleeps = (none, sleeps) := by
  intro fuel
  induction fuel with
  | zero => intro attempt sleeps; rfl
  | succ fuel ih =>
    intro attempt sleeps
    simp [download_go, hp attempt]
    exact ih (attempt + 1) sleeps

/-- Helper: `fetch_latest_data` on `exMarket10` yields exactly the five
non-target instruments. -/
theorem fetch_d10 : fetch_latest_data exMarket10 = some d10 := rfl

/-- Helper: the change records computed from `d10`. -/
theorem calc_d10 :
    calculate_changes d10 =
      [("^GSPC", ⟨"SP500", 100, 101, 1⟩), ("^IXIC", ⟨"NASDAQ", 100, 101, 1⟩),
       ("^SOX", ⟨"SOX", 100, 101, 1⟩), ("TSM", ⟨"TSM ADR", 100, 101, 1⟩),
       ("USDTWD=X", ⟨"USD TWD", 100, 101, 1⟩)] := by
  norm_num [calculate_changes, d10, computeChange, List.filterMap_cons, List.filterMap_nil]

/-- Helper: `^TWII` has no change record after the `exMarket10` run. -/
theorem lookup_twii_d10 : List.lookup "^TWII" (calculate_changes d10) = none := by
  rw [calc_d10]
  rfl

/-- C1 counterexample: on a complete record set where every weighted
instrument moved +1 percent, `weighted_change = 1 > 0.5` yet the
confidence is 82 — not `round(1.0 × 0.95 × 0.87 × 100) = 83` (nor 58):
line 239 truncates with `int(...)` instead of rounding. -/
theorem C1_counterexample :
    predict_opening exampleRecords = some exPrediction ∧
    exPrediction.weighted_change = 1 ∧ exPrediction.confidence = 82 ∧
    exPrediction.confidence ≠ 83 ∧ exPrediction.confidence ≠ 58 :=
  ⟨example_predict_eq, rfl, rfl, by decide, by decide⟩

/-- C1 (amended): for every complete record set accepted by
`predict_opening`, the confidence takes exactly one of the two values
`int(0.7 × 0.95 × baseAccuracy × 100) = 57` and
`int(1.0 × 0.95 × baseAccuracy × 100) = 82` (truncation, not rounding),
and the choice is determined solely by whether `|weighted_change| > 0.5`. -/
theorem C1_confidence_two_tier :
    ∀ (calculated : List (String × ChangeRecord)) (p : Prediction),
      predict_opening calculated = some p →
      (p.confidence = 57 ∨ p.confidence = 82) ∧
      (p.confidence = 82 ↔ |p.weighted_change| > 1/2) ∧
      (p.confidence = 57 ↔ ¬|p.weighted_change| > 1/2) := by
  intro calculated p h
  obtain ⟨g, i, s, t, u, w, -, -, -, -, -, -, rfl⟩ := predict_opening_inv h
  rw [predict_core_confidence, predict_core_weighted_change]
  by_cases hw : |weighted_change_of g.change_pct i.change_pct s.change_pct
    t.change_pct u.change_pct| > 1/2 <;> simp [hw] <;> exact le_or_lt _ _

/-- C1 witness: the amended theorem applied to the example records. -/
theorem C1_confidence_two_tier_witness :
    (exPrediction.confidence = 57 ∨ exPrediction.confidence = 82) ∧
    (exPrediction.confidence = 82 ↔ |exPrediction.weighted_change| > 1/2) ∧
    (exPrediction.confidence = 57 ↔ ¬|exPrediction.weighted_change| > 1/2) :=
  C1_confidence_two_tier exampleRecords exPrediction example_predict_eq

/-- C2: at the failing input — transient errors on attempts 0 and 1,
success on attempt 2 — the code does return the late success, but the two
sleeps it performs are `2 ** 0 = 1` and `2 ** 1 = 2` seconds, not the 2s
and 4s that the spec and the source's own inline comment
("2秒、4秒、8秒") prescribe. -/
theorem C2_backoff_trace :
    download_with_retry twoTransientThenOk 3 = (some [100, 101], [1, 2]) := rfl

/-- C3 counterexample: an attempt returning zero bars is not abandoned:
with an empty frame on attempt 0 and one bar on attempt 1, the fetcher
retries and returns the bar — contradicting "abandon immediately with no
further retry attempts" for the empty-range case. -/
theorem C3_counterexample :
    download_with_retry emptyThenOk 3 = (some [42], []) := rfl

/-- C3 (amended): an attempt raising a permanent-classified error
(invalid/delisted symbol) abandons immediately — `None`, no sleeps —
while an attempt returning zero bars is retried (without sleeping) until
the configured attempts are exhausted, after which the instrument is
recorded unavailable (`None`). -/
theorem C3_perm_abandons :
    (∀ (provider : Nat → AttemptOutcome) (n : Nat), 0 < n →
        provider 0 = AttemptOutcome.permError →
        download_with_retry provider n = (none, [])) ∧
    (∀ (provider : Nat → AttemptOutcome) (n : Nat),
        (∀ k, provider k = AttemptOutcome.data []) →
        download_with_retry provider n = (none, [])) := by
  constructor
  · intro provider n hn hp
    obtain ⟨m, rfl⟩ : ∃ m, n = m + 1 := ⟨n - 1, by omega⟩
    simp [download_with_retry, download_go, hp]
  · intro provider n hp
    exact download_go_all_empty provider n hp n 0 []

/-- C3 witness: the amended theorem at a permanently failing provider and
at an all-empty provider. -/
theorem C3_perm_abandons_witness :
    (0 < 3 ∧ permProvider 0 = AttemptOutcome.permError ∧
      download_with_retry permProvider 3 = (none, [])) ∧
    download_with_retry emptyProvider 3 = (none, []) :=
  ⟨⟨by decide, rfl, C3_perm_abandons.1 permProvider 3 (by decide) rfl⟩,
    C3_perm_abandons.2 emptyProvider 3 fun _ => rfl⟩

/-- C4: a zero previous close makes the change computation signal an
error (`none`, the modelled `ZeroDivisionError`) instead of producing an
infinite `change_pct`, and `calculate_changes` then excludes that
instrument from the run. -/
theorem C4_zero_prev_close :
    (∀ (name : String) (closes : List ℚ),
        closes.dropLast.getLast? = some 0 → computeChange name closes = none) ∧
    (∀ (t n : String) (cs : List ℚ) (rest : List (String × String × List ℚ)),
        computeChange n cs = none →
        calculate_changes ((t, n, cs) :: rest) = calculate_changes rest) := by
  constructor
  · intro name closes h
    unfold computeChange
    rw [h]
    rcases closes.getLast? with _ | curr <;> simp
  · intro t n cs rest h
    simp [calculate_changes, List.filterMap_cons, h]

/-- C4 witness: the series `[0, 5]` has previous close 0; its instrument
is skipped and contributes nothing to the run. -/
theorem C4_zero_prev_close_witness :
    (([0, 5] : List ℚ).dropLast.getLast? = some 0 ∧ computeChange "X" [0, 5] = none) ∧
    calculate_changes [("T", "X", [0, 5])] = [] :=
  ⟨⟨by simp, C4_zero_prev_close.1 "X" [0, 5] (by simp)⟩,
    (C4_zero_prev_close.2 "T" "X" [0, 5] []
      (C4_zero_prev_close.1 "X" [0, 5] (by simp))).trans rfl⟩

/-- C5: if any of the five weighted instruments' change records or the
target's record (source of the baseline close) is missing,
`predict_opening` fails with `none` (the `except KeyError` path) and never
substitutes 0. -/
theorem C5_missing_required :
    ∀ (calculated : List (String × ChangeRecord)),
      (List.lookup "^GSPC" calculated = none ∨
       List.lookup "^IXIC" calculated = none ∨
       List.lookup "^SOX" calculated = none ∨
       List.lookup "TSM" calculated = none ∨
       List.lookup "USDTWD=X" calculated = none ∨
       List.lookup "^TWII" calculated = none) →
      predict_opening calculated = none :=
  fun _ h => predict_opening_none_of_missing h

/-- C5 witness: with no records at all the predictor fails. -/
theorem C5_missing_required_witness :
    predict_opening ([] : List (String × ChangeRecord)) = none :=
  C5_missing_required [] (Or.inl rfl)

/-- C6: every produced prediction has band width
`predicted_high − predicted_low = 2 × stdDev × volatilityMultiplier
= 195.5`, the band is symmetric about `predicted_open`, and the half
width is the constant `stdDev × volatilityMultiplier`, independent of
`weighted_change`. -/
theorem C6_band_constant :
    ∀ (calculated : List (String × ChangeRecord)) (p : Prediction),
      predict_opening calculated = some p →
      p.predicted_high - p.predicted_low =
        2 * (MODEL_PARAMS.stdDev * MODEL_PARAMS.volatility) ∧
      p.predicted_high - p.predicted_low = 391/2 ∧
      p.predicted_high - p.predicted_open = p.predicted_open - p.predicted_low ∧
      p.predicted_open - p.predicted_low = MODEL_PARAMS.stdDev * MODEL_PARAMS.volatility := by
  intro calculated p h
  obtain ⟨g, i, s, t, u, w, -, -, -, -, -, -, rfl⟩ := predict_opening_inv h
  refine ⟨?_, ?_, ?_, ?_⟩ <;> simp [predict_core, MODEL_PARAMS] <;> ring_nf

/-- C6 witness: the band facts at the example prediction. -/
theorem C6_band_constant_witness :
    exPrediction.predicted_high - exPrediction.predicted_low =
      2 * (MODEL_PARAMS.stdDev * MODEL_PARAMS.volatility) ∧
    exPrediction.predicted_high - exPrediction.predicted_low = 391/2 ∧
    exPrediction.predicted_high - exPrediction.predicted_open =
      exPrediction.predicted_open - exPrediction.predicted_low ∧
    exPrediction.predicted_open - exPrediction.predicted_low =
      MODEL_PARAMS.stdDev * MODEL_PARAMS.volatility :=
  C6_band_constant exampleRecords exPrediction example_predict_eq

/-- C7: the weights are tsm 0.35, sox 0.25, nasdaq 0.20, sp500 0.15,
currency 0.05, summing to exactly 1; the weighted change is their linear
combination, so perturbing any single instrument's change by `d` shifts
the weighted change by exactly `d × weight`. -/
theorem C7_weights_linearity :
    (MODEL_WEIGHTS.tsm + MODEL_WEIGHTS.sox + MODEL_WEIGHTS.nasdaq +
      MODEL_WEIGHTS.sp500 + MODEL_WEIGHTS.currency = 1) ∧
    (∀ sp nas soxc tsmc cur : ℚ,
      weighted_change_of sp nas soxc tsmc cur =
        tsmc * (35/100) + soxc * (25/100) + nas * (20/100) +
          sp * (15/100) + cur * (5/100)) ∧
    (∀ sp nas soxc tsmc cur d : ℚ,
      (weighted_change_of (sp + d) nas soxc tsmc cur -
        weighted_change_of sp nas soxc tsmc cur = d * MODEL_WEIGHTS.sp500) ∧
      (weighted_change_of sp (nas + d) soxc tsmc cur -
        weighted_change_of sp nas soxc tsmc cur = d * MODEL_WEIGHTS.nasdaq) ∧
      (weighted_change_of sp nas (soxc + d) tsmc cur -
        weighted_change_of sp nas soxc tsmc cur = d * MODEL_WEIGHTS.sox) ∧
      (weighted_change_of sp nas soxc (tsmc + d) cur -
        weighted_change_of sp nas soxc tsmc cur = d * MODEL_WEIGHTS.tsm) ∧
      (weighted_change_of sp nas soxc tsmc (cur + d) -
        weighted_change_of sp nas soxc tsmc cur = d * MODEL_WEIGHTS.currency)) := by
  constructor
  · norm_num [ MODEL_WEIGHTS]
  constructor
  · intro sp nas soxc tsmc cur
    simp [weighted_change_of, MODEL_WEIGHTS]
    ring
  · intro sp nas soxc tsmc cur d
    refine ⟨?_, ?_, ?_, ?_, ?_⟩ <;> simp [weighted_change_of, MODEL_WEIGHTS] <;> ring

/-- C8 counterexample: a one-bar series whose single close is 0 does not
yield a degenerate record with `change_pct = 0`; the division by the zero
previous close raises, and the instrument is skipped. -/
theorem C8_counterexample : computeChange "TWII" [0] = none := rfl

/-- C8 (amended): for every one-bar series whose close is nonzero, the
change calculator yields `previous_close = current_close =` that close and
`change_pct = 0`, as a valid record. -/
theorem C8_single_bar :
    ∀ (name : String) (c : ℚ), c ≠ 0 →
      computeChange name [c] = some ⟨name, c, c, 0⟩ := by
  intro name c hc
  simp [computeChange, hc]

/-- C8 witness: the degenerate record at a single close of 100. -/
theorem C8_single_bar_witness :
    (100 : ℚ) ≠ 0 ∧ computeChange "TWII" [100] = some ⟨"TWII", 100, 100, 0⟩ :=
  ⟨by norm_num, C8_single_bar "TWII" 100 (by norm_num)⟩

/-- C9: for every (deterministic) market environment, the run exits 0
exactly when a prediction was produced, and the exit code is always 0 or
1 — fetch insufficiency and `predict_opening` failure both exit 1. -/
theorem C9_exit_code_contract :
    ∀ (market : Market),
      ((main market).1 = 0 ↔ ((main market).2).isSome) ∧
      ((main market).1 = 0 ∨ (main market).1 = 1) := by
  intro market
  unfold main
  rcases fetch_latest_data market with _ | d
  · simp
  · by_cases hl : (calculate_changes d).length < 4
    · simp [hl]
    · rcases hp : predict_opening (calculate_changes d) with _ | p <;> simp [hl, hp]

/-- C10: a prediction is produced only when all six instruments have a
change record; and any run that passes the fetch stage's 4-of-6 gate but
misses one of the six required lookups ends as `(1, none)`: non-zero exit,
no prediction. -/
theorem C10_six_instruments_required :
    (∀ (calculated : List (String × ChangeRecord)),
        (predict_opening calculated).isSome →
        (List.lookup "^GSPC" calculated).isSome ∧
        (List.lookup "^IXIC" calculated).isSome ∧
        (List.lookup "^SOX" calculated).isSome ∧
        (List.lookup "TSM" calculated).isSome ∧
        (List.lookup "USDTWD=X" calculated).isSome ∧
        (List.lookup "^TWII" calculated).isSome) ∧
    (∀ (market : Market) (d : List (String × String × List ℚ)),
        fetch_latest_data market = some d →
        (List.lookup "^GSPC" (calculate_changes d) = none ∨
         List.lookup "^IXIC" (calculate_changes d) = none ∨
         List.lookup "^SOX" (calculate_changes d) = none ∨
         List.lookup "TSM" (calculate_changes d) = none ∨
         List.lookup "USDTWD=X" (calculate_changes d) = none ∨
         List.lookup "^TWII" (calculate_changes d) = none) →
        main market = (1, none)) := by
  constructor
  · intro calculated hsome
    rw [Option.isSome_iff_exists] at hsome
    obtain ⟨p, hp⟩ := hsome
    obtain ⟨g, i, s, t, u, w, hg, hi, hs, ht, hu, hw, -⟩ := predict_opening_inv hp
    simp [hg, hi, hs, ht, hu, hw]
  · intro market d hf hmiss
    have hnone := predict_opening_none_of_missing hmiss
    unfold main
    rw [hf]
    by_cases hl : (calculate_changes d).length < 4 <;> simp [hl, hnone]

/-- C10 witness: in `exMarket10` five of six instruments fetch (the
4-of-6 gate passes) but `^TWII` is missing, and the run ends `(1, none)`. -/
theorem C10_six_instruments_required_witness : main exMarket10 = (1, none) :=
  C10_six_instruments_required.2 exMarket10 d10 fetch_d10
    (Or.inr (Or.inr (Or.inr (Or.inr (Or.inr lookup_twii_d10)))))

end TwStockPredictor
